import Mathlib

/-!
Verification of the STAC-to-layers-config generator
(`scripts/stac-to-layers-config.py`).

The script resolves collections inside a STAC catalog, classifies assets
as PMTiles (vector) or COG (raster), and synthesizes a layer
configuration document.  The definitions below are a shallow embedding
of that script: JSON documents become Lean structures with `Option`
fields for possibly-missing keys, `fetch_json` becomes an explicit
mapping from URLs to documents (failure = `none`), `urljoin` becomes an
explicit join function parameter, and every `sys.exit` / uncaught
exception becomes an `Except.error`.
-/

namespace Stac

/-! ### String helpers mirroring Python string operations -/

/-- Python `needle in hay` (substring containment) on character lists. -/
def subList (needle : List Char) : List Char → Bool
  | [] => needle.isEmpty
  | c :: rest => List.isPrefixOf needle (c :: rest) || subList needle rest

/-- Python `needle in hay` for strings. -/
def containsSub (hay needle : String) : Bool :=
  subList needle.data hay.data

/-- Python `s.endswith(suffix)`. -/
def strEndsWith (s suffixStr : String) : Bool :=
  List.isSuffixOf suffixStr.data s.data

/-- Python `s.lower()` (ASCII case folding, as the script's inputs use). -/
def pyLower (s : String) : String :=
  String.mk (s.data.map Char.toLower)

/-- Python `s.startswith(pre)`. -/
def pyStartsWith (s pre : String) : Bool :=
  List.isPrefixOf pre.data s.data

/-! ### Data model (JSON documents of the script, `Option` = missing key) -/

/-- A STAC link object: `rel` and `href` entries, each possibly absent. -/
structure Link where
  rel : Option String
  href : Option String
deriving DecidableEq

/-- A STAC provider record. -/
structure Provider where
  name : Option String
deriving DecidableEq

/-- One record of the `table:columns` STAC extension. -/
structure TableColumn where
  name : Option String
  type : Option String
  description : Option String
deriving DecidableEq

/-- A STAC asset: `href`, declared media `type` and `title`, each possibly absent. -/
structure Asset where
  href : Option String
  type : Option String
  title : Option String
deriving DecidableEq

/-- A STAC catalog or collection document, restricted to the keys the
script reads.  `providers` distinguishes a missing key (`none`,
defaulted by the script to `[{}]`) from a present-but-empty list
(`some []`).  `links`, `assets`, `tableColumns` are read with default
`[]`/`{}` by the script, so a missing key and an empty value coincide. -/
structure Document where
  id : Option String
  title : Option String
  links : List Link
  assets : List (String × Asset)
  providers : Option (List Provider)
  tableColumns : List TableColumn
deriving DecidableEq

/-- Fatal outcomes: every `sys.exit(1)` site and the uncaught
`IndexError` of `collection.get("providers", [{}])[0]` on an empty
providers list. -/
inductive Err where
  | fetchFailed (url : String)
  | collectionNotFound (collectionId : String)
  | assetNotFound (assetId : String)
  | unknownLayerType (assetId : String)
  | indexError
deriving DecidableEq

/-- Decide whether an `Except` value is the error case. -/
def isErr {α : Type} : Except Err α → Bool
  | Except.error _ => true
  | Except.ok _ => false

/-! ### Output configuration model -/

/-- Entry of the `filterableProperties` mapping. -/
structure FilterProp where
  type : String
  description : String
deriving DecidableEq

/-- The `source` object of a vector layer. -/
structure VectorSource where
  type : String
  url : String
  attribution : String
deriving DecidableEq

/-- The `paint` object of a vector layer. -/
structure FillPaint where
  fillColor : String
  fillOpacity : ℚ
deriving DecidableEq

/-- The `layout` object of a layer. -/
structure LayoutVis where
  visibility : String
deriving DecidableEq

/-- The `layer` object of a vector layer. -/
structure VectorLayer where
  type : String
  sourceLayer : String
  minzoom : Nat
  maxzoom : Nat
  paint : FillPaint
  layout : LayoutVis
deriving DecidableEq

/-- The `source` object of a raster layer. -/
structure RasterSource where
  type : String
  tiles : List String
  tileSize : Nat
  minzoom : Nat
  maxzoom : Nat
  attribution : String
deriving DecidableEq

/-- The `paint` object of a raster layer. -/
structure RasterPaint where
  rasterOpacity : ℚ
deriving DecidableEq

/-- The `layer` object of a raster layer. -/
structure RasterLayer where
  type : String
  paint : RasterPaint
  layout : LayoutVis
deriving DecidableEq

/-- The classification-dependent part of a layer descriptor.  The
`filterableProperties` key exists only on vector descriptors and only
optionally (the script adds it conditionally to the dict). -/
inductive LayerSpecific where
  | vector (source : VectorSource) (layer : VectorLayer)
      (filterableProperties : Option (List (String × FilterProp)))
  | raster (source : RasterSource) (layer : RasterLayer)
deriving DecidableEq

/-- A complete layer descriptor (one value of the output `layers` map). -/
structure LayerConfig where
  displayName : String
  layerIds : List String
  checkboxId : String
  hasLegend : Bool
  isVector : Bool
  specific : LayerSpecific
deriving DecidableEq

/-- The `source.type` string of either descriptor family. -/
def LayerSpecific.sourceTypeStr : LayerSpecific → String
  | .vector s _ _ => s.type
  | .raster s _ => s.type

/-- The vector `source.url`, when the descriptor is vector. -/
def LayerSpecific.vectorUrl? : LayerSpecific → Option String
  | .vector s _ _ => some s.url
  | .raster _ _ => none

/-- The vector `layer` object, when the descriptor is vector. -/
def LayerSpecific.vectorLayer? : LayerSpecific → Option VectorLayer
  | .vector _ l _ => some l
  | .raster _ _ => none

/-- The `filterableProperties` mapping, when present. -/
def LayerSpecific.filterable? : LayerSpecific → Option (List (String × FilterProp))
  | .vector _ _ fp => fp
  | .raster _ _ => none

/-- The raster `source.tiles` list, when the descriptor is raster. -/
def LayerSpecific.rasterTiles? : LayerSpecific → Option (List String)
  | .raster s _ => some s.tiles
  | .vector _ _ _ => none

/-- The raster `source.tileSize`, when the descriptor is raster. -/
def LayerSpecific.rasterTileSize? : LayerSpecific → Option Nat
  | .raster s _ => some s.tileSize
  | .vector _ _ _ => none

/-- The raster `source` zoom range, when the descriptor is raster. -/
def LayerSpecific.rasterZoomRange? : LayerSpecific → Option (Nat × Nat)
  | .raster s _ => some (s.minzoom, s.maxzoom)
  | .vector _ _ _ => none

/-- The raster `layer` object, when the descriptor is raster. -/
def LayerSpecific.rasterLayer? : LayerSpecific → Option RasterLayer
  | .raster _ l => some l
  | .vector _ _ _ => none

/-! ### Asset classifier (`detect_layer_type`, script lines 59-69) -/

/-- `detect_layer_type(asset)`: PMTiles if the declared media type
(lower-cased) contains `"pmtiles"` or the href ends with `".pmtiles"`;
else COG if the lower-cased media type contains `"geotiff"` or
`"cloud-optimized"` or the href ends with `".tif"`; else `"unknown"`. -/
def detect_layer_type (asset : Asset) : String :=
  if containsSub (pyLower (asset.type.getD "")) "pmtiles"
      || strEndsWith (asset.href.getD "") ".pmtiles" then "pmtiles"
  else if containsSub (pyLower (asset.type.getD "")) "geotiff"
      || containsSub (pyLower (asset.type.getD "")) "cloud-optimized"
      || strEndsWith (asset.href.getD "") ".tif" then "cog"
  else "unknown"

/-! ### Attribution extraction (script lines 97-102) -/

/-- The anchor markup the script builds from an about link and a provider. -/
def anchorOf (about provider : String) : String :=
  "<a href=\"" ++ about ++ "\" target=\"_blank\">" ++ provider ++ "</a>"

/-- `next((link.get("href") for link in links if link.get("rel") == "about"), "")`
with Python truthiness collapsing a missing href to `""`. -/
def aboutLinkOf (c : Document) : String :=
  match c.links.find? (fun l => l.rel == some "about") with
  | none => ""
  | some l => l.href.getD ""

/-- `collection.get("providers", [{}])[0].get("name", "")`: a missing
providers key defaults to `[{}]` whose first element has no name; a
present-but-empty list raises `IndexError` on the `[0]` access. -/
def firstProviderNameE (c : Document) : Except Err String :=
  match c.providers with
  | none => Except.ok ""
  | some [] => Except.error Err.indexError
  | some (p :: _) => Except.ok (p.name.getD "")

/-- Attribution extraction of `generate_layer_config` (lines 97-102):
anchor markup when both the about href and the provider name are
non-empty, `""` otherwise; propagates the `IndexError` of the
providers access. -/
def extractAttribution (c : Document) : Except Err String :=
  match firstProviderNameE c with
  | Except.error e => Except.error e
  | Except.ok provider_name =>
      Except.ok (if aboutLinkOf c ≠ "" ∧ provider_name ≠ ""
        then anchorOf (aboutLinkOf c) provider_name else "")

/-! ### Filterable attribute extraction (script lines 133-158) -/

/-- Python dict assignment `d[k] = v`: overwrite in place, else append. -/
def dictInsert {α : Type} (k : String) (v : α) : List (String × α) → List (String × α)
  | [] => [(k, v)]
  | p :: rest => if p.1 = k then (k, v) :: rest else p :: dictInsert k v rest

/-- The structural columns the script skips. -/
def excludedColumns : List String := ["geometry", "h10", "h9", "h8", "h0"]

/-- The `filterableProperties` entry built from one table column. -/
def filterablePropOf (col : TableColumn) : FilterProp :=
  { type := if containsSub (col.type.getD "string") "float"
        || containsSub (col.type.getD "string") "int" then "number" else "string"
  , description := col.description.getD "" }

/-- The `for col in table_columns` loop of the script, with the dict
accumulator made explicit. -/
def filterableLoop : List TableColumn → List (String × FilterProp) → List (String × FilterProp)
  | [], acc => acc
  | col :: rest, acc =>
      if col.name.getD "" ∈ excludedColumns then filterableLoop rest acc
      else filterableLoop rest (dictInsert (col.name.getD "") (filterablePropOf col) acc)

/-- The complete filterable mapping built from a column list. -/
def extractFilterable (cols : List TableColumn) : List (String × FilterProp) :=
  filterableLoop cols []

/-- The optional `filterableProperties` field: the script computes the
mapping only when `table:columns` is non-empty, and attaches it only
when the mapping itself is non-empty. -/
def filterableField (cols : List TableColumn) : Option (List (String × FilterProp)) :=
  if cols = [] then none
  else if extractFilterable cols = [] then none
  else some (extractFilterable cols)

/-! ### Display name resolution (script line 95) -/

/-- `display_name or asset_title or collection.get("title", layer_key)`:
Python `or` falls through on `None` and on the empty string, while the
`.get` default applies only when the `title` key is absent. -/
def resolvedDisplayName (display_name : Option String) (asset : Asset)
    (collection : Document) (layer_key : String) : String :=
  if display_name.getD "" ≠ "" then display_name.getD ""
  else if asset.title.getD "" ≠ "" then asset.title.getD ""
  else collection.title.getD layer_key

/-! ### Layer descriptor builder (`generate_layer_config`, lines 72-196) -/

/-- The TiTiler tile URL template of the raster branch (lines 163-165):
`rescale` is appended only when it is truthy (neither `None` nor `""`). -/
def tilesUrlOf (titiler_url asset_href colormap : String) (rescale : Option String) : String :=
  if rescale.getD "" ≠ "" then
    titiler_url ++ "/cog/tiles/WebMercatorQuad/{z}/{x}/{y}.png?url=" ++ asset_href
      ++ "&colormap_name=" ++ colormap ++ "&rescale=" ++ rescale.getD ""
  else
    titiler_url ++ "/cog/tiles/WebMercatorQuad/{z}/{x}/{y}.png?url=" ++ asset_href
      ++ "&colormap_name=" ++ colormap

/-- `generate_layer_config`: fails when the asset id is absent, when the
providers access raises, or when the classification is `"unknown"`;
otherwise builds the vector or raster descriptor of the script. -/
def generate_layer_config (collection : Document) (asset_id layer_key : String)
    (display_name : Option String) (titiler_url colormap : String)
    (rescale : Option String) : Except Err LayerConfig :=
  match collection.assets.lookup asset_id with
  | none => Except.error (Err.assetNotFound asset_id)
  | some asset =>
    match extractAttribution collection with
    | Except.error e => Except.error e
    | Except.ok attribution =>
      if detect_layer_type asset = "pmtiles" then
        Except.ok
          { displayName := resolvedDisplayName display_name asset collection layer_key
          , layerIds := [layer_key ++ "-layer"]
          , checkboxId := layer_key ++ "-layer"
          , hasLegend := false
          , isVector := true
          , specific := LayerSpecific.vector
              { type := "vector"
              , url := "pmtiles://" ++ asset.href.getD ""
              , attribution := attribution }
              { type := "fill"
              , sourceLayer := layer_key
              , minzoom := 0
              , maxzoom := 22
              , paint := { fillColor := "#2E7D32", fillOpacity := 1/2 }
              , layout := { visibility := "none" } }
              (filterableField collection.tableColumns) }
      else if detect_layer_type asset = "cog" then
        Except.ok
          { displayName := resolvedDisplayName display_name asset collection layer_key
          , layerIds := [layer_key ++ "-layer"]
          , checkboxId := layer_key ++ "-layer"
          , hasLegend := false
          , isVector := false
          , specific := LayerSpecific.raster
              { type := "raster"
              , tiles := [tilesUrlOf titiler_url (asset.href.getD "") colormap rescale]
              , tileSize := 256
              , minzoom := 0
              , maxzoom := 12
              , attribution := attribution }
              { type := "raster"
              , paint := { rasterOpacity := 7/10 }
              , layout := { visibility := "none" } } }
      else Except.error (Err.unknownLayerType asset_id)

/-! ### Catalog resolver (`find_collection_url`, lines 40-56) -/

/-- A child link's effective location: used as-is when it starts with
`"http"`, otherwise joined against the catalog's own location. -/
def resolveChildUrl (join : String → String → String) (catalog_url href : String) : String :=
  if pyStartsWith href "http" then href else join catalog_url href

/-- The `for link in catalog.get("links", [])` loop of
`find_collection_url`. -/
def findChildLoop (fetch : String → Option Document) (join : String → String → String)
    (catalog_url collection_id : String) : List Link → Except Err (Option String)
  | [] => Except.ok none
  | l :: rest =>
    if l.rel == some "child" then
      match fetch (resolveChildUrl join catalog_url (l.href.getD "")) with
      | none => Except.error (Err.fetchFailed (resolveChildUrl join catalog_url (l.href.getD "")))
      | some coll =>
          if coll.id == some collection_id then
            Except.ok (some (resolveChildUrl join catalog_url (l.href.getD "")))
          else findChildLoop fetch join catalog_url collection_id rest
    else findChildLoop fetch join catalog_url collection_id rest

/-- `find_collection_url(catalog_url, collection_id)` with the fetch map
and the URL join function passed explicitly. -/
def find_collection_url (fetch : String → Option Document) (join : String → String → String)
    (catalog_url collection_id : String) : Except Err (Option String) :=
  match fetch catalog_url with
  | none => Except.error (Err.fetchFailed catalog_url)
  | some catalog => findChildLoop fetch join catalog_url collection_id catalog.links

/-! ### Spec-side formulation of the resolver (following the spec's words) -/

/-- The effective locations of the direct child links, in document order. -/
def childUrlsOf (join : String → String → String) (catalog_url : String)
    (links : List Link) : List String :=
  (links.filter (fun l => l.rel == some "child")).map
    (fun l => resolveChildUrl join catalog_url (l.href.getD ""))

/-- Spec wording: walk the candidate locations in order, fetch each, and
return the first whose identifier matches exactly. -/
def firstMatchingChild (fetch : String → Option Document) (collection_id : String) :
    List String → Except Err (Option String)
  | [] => Except.ok none
  | u :: rest =>
    match fetch u with
    | none => Except.error (Err.fetchFailed u)
    | some d =>
        if d.id == some collection_id then Except.ok (some u)
        else firstMatchingChild fetch collection_id rest

/-- Spec wording of the whole resolver: fetch the root, then search the
direct child locations only. -/
def resolveSpec (fetch : String → Option Document) (join : String → String → String)
    (catalog_url collection_id : String) : Except Err (Option String) :=
  match fetch catalog_url with
  | none => Except.error (Err.fetchFailed catalog_url)
  | some catalog => firstMatchingChild fetch collection_id (childUrlsOf join catalog_url catalog.links)

/-! ### Spec-side formulations of attribution and display name -/

/-- Spec wording: the first `about` link's href, empty if absent. -/
def firstAboutHref (c : Document) : String :=
  (((c.links.find? (fun l => l.rel == some "about")).bind (fun l => l.href)).getD "")

/-- Spec wording: the first provider's name, empty if absent, with the
script's `[{}]` default for a missing providers key. -/
def firstProviderName (c : Document) : String :=
  ((((c.providers.getD [{ name := none }]).head?).bind (fun p => p.name)).getD "")

/-- Spec wording of the attribution: the exact anchor markup when both
parts are non-empty, the empty string otherwise. -/
def attributionSpec (c : Document) : String :=
  if firstAboutHref c ≠ "" ∧ firstProviderName c ≠ "" then
    anchorOf (firstAboutHref c) (firstProviderName c)
  else ""

/-- Spec wording of the display name resolution order, with the
title fallback made explicit: the layer key applies only when the
collection has no title entry at all. -/
def displayNameSpec (override : Option String) (assetTitle : Option String)
    (collTitle : Option String) (key : String) : String :=
  if override.getD "" ≠ "" then override.getD ""
  else if assetTitle.getD "" ≠ "" then assetTitle.getD ""
  else
    match collTitle with
    | some t => t
    | none => key

/-! ### Batch orchestrator (`main`, lines 291-338) -/

/-- Per-layer options recognized by the script. -/
structure LayerOptions where
  colormap : Option String
  rescale : Option String
deriving DecidableEq

/-- One requested layer (one element of `layer_specs`). -/
structure LayerRequest where
  collection_id : String
  asset_id : String
  layer_key : String
  display_name : Option String
  options : LayerOptions
deriving DecidableEq

/-- The body of the `for spec in layer_specs` loop for one request:
resolve the collection, re-fetch it, and build its descriptor. -/
def processSpec (fetch : String → Option Document) (join : String → String → String)
    (catalog_url titiler_url default_colormap : String) (req : LayerRequest) :
    Except Err LayerConfig :=
  match find_collection_url fetch join catalog_url req.collection_id with
  | Except.error e => Except.error e
  | Except.ok none => Except.error (Err.collectionNotFound req.collection_id)
  | Except.ok (some curl) =>
    match fetch curl with
    | none => Except.error (Err.fetchFailed curl)
    | some collection =>
        generate_layer_config collection req.asset_id req.layer_key req.display_name
          titiler_url (req.options.colormap.getD default_colormap) req.options.rescale

/-- The request loop, accumulating `layers_config["layers"]`. -/
def runLayersLoop (process : LayerRequest → Except Err LayerConfig) :
    List LayerRequest → List (String × LayerConfig) → Except Err (List (String × LayerConfig))
  | [], acc => Except.ok acc
  | req :: rest, acc =>
    match process req with
    | Except.error e => Except.error e
    | Except.ok cfg => runLayersLoop process rest (dictInsert req.layer_key cfg acc)

/-- The fixed output description string. -/
def configDescription : String :=
  "Map layer configuration for California Protected Lands application"

/-- The output configuration document. -/
structure LayersConfig where
  version : String
  description : String
  layers : List (String × LayerConfig)
deriving DecidableEq

/-- The orchestration core of `main`: build the output document from the
catalog location, the request list, and the defaults. -/
def runMain (fetch : String → Option Document) (join : String → String → String)
    (catalog_url titiler_url default_colormap : String) (specs : List LayerRequest) :
    Except Err LayersConfig :=
  match runLayersLoop (processSpec fetch join catalog_url titiler_url default_colormap) specs [] with
  | Except.error e => Except.error e
  | Except.ok layers =>
      Except.ok { version := "1.0", description := configDescription, layers := layers }

/-! ### Concrete documents used for instantiations -/

/-- Project an `Except` result to its success value. -/
def okValue {α : Type} : Except Err α → Option α
  | Except.ok a => some a
  | Except.error _ => none

/-- A concrete PMTiles asset. -/
def assetInst : Asset :=
  { href := some "data.pmtiles", type := none, title := some "Vulnerable Carbon 2018" }

/-- A concrete collection document with an about link and one provider. -/
def collInst : Document :=
  { id := some "c1", title := some "Irrecoverable Carbon"
  , links := [{ rel := some "about", href := some "https://example.org/about" }]
  , assets := [("a1", assetInst)]
  , providers := some [{ name := some "State Agency" }]
  , tableColumns := [] }

/-- `collInst` with a present-but-empty providers list. -/
def collProvEmpty : Document := { collInst with providers := some [] }

/-- A collection whose `title` key is present but holds the empty string,
with an asset carrying no title. -/
def collEmptyTitle : Document :=
  { id := some "c2", title := some ""
  , links := []
  , assets := [("a1", { href := some "d.pmtiles", type := none, title := none })]
  , providers := none, tableColumns := [] }

/-- A concrete COG asset. -/
def assetRaster : Asset :=
  { href := some "img.tif"
  , type := some "image/tiff; application=geotiff; profile=cloud-optimized"
  , title := none }

/-- A concrete collection with a COG asset. -/
def collRaster : Document :=
  { id := some "c3", title := some "Raster Coll", links := []
  , assets := [("r1", assetRaster)]
  , providers := none, tableColumns := [] }

/-- A concrete `table:columns` list containing an excluded column. -/
def colsInst : List TableColumn :=
  [ { name := some "geometry", type := some "binary", description := none }
  , { name := some "acres", type := some "float64", description := some "Area" } ]

/-- The filterable entry `colsInst` produces. -/
def acresEntry : String × FilterProp := ("acres", { type := "number", description := "Area" })

/-- The acres column of `colsInst`. -/
def acresCol : TableColumn := { name := some "acres", type := some "float64", description := some "Area" }

/-- A concrete catalog with one child link to `collInst`. -/
def catInst : Document :=
  { id := some "root", title := none
  , links := [{ rel := some "child", href := some "http://coll" }]
  , assets := [], providers := none, tableColumns := [] }

/-- A concrete fetch map serving `catInst` and `collInst`. -/
def fetchInst : String → Option Document := fun u =>
  if u = "http://cat" then some catInst
  else if u = "http://coll" then some collInst else none

/-- A fetch map with no documents. -/
def fetchNone : String → Option Document := fun _ => none

/-- A concrete URL join function. -/
def joinInst : String → String → String := fun a b => a ++ b

/-- The descriptor `generate_layer_config` builds from `collInst`/`a1`/`k1`. -/
def cfgVec1 : LayerConfig :=
  { displayName := "Vulnerable Carbon 2018"
  , layerIds := ["k1-layer"], checkboxId := "k1-layer"
  , hasLegend := false, isVector := true
  , specific := LayerSpecific.vector
      { type := "vector", url := "pmtiles://data.pmtiles"
      , attribution := "<a href=\"https://example.org/about\" target=\"_blank\">State Agency</a>" }
      { type := "fill", sourceLayer := "k1", minzoom := 0, maxzoom := 22
      , paint := { fillColor := "#2E7D32", fillOpacity := 1/2 }
      , layout := { visibility := "none" } }
      none }

/-- `cfgVec1` with an overridden display name. -/
def cfgVec2 : LayerConfig := { cfgVec1 with displayName := "Other" }

/-- The descriptor `generate_layer_config` builds from `collRaster`/`r1`/`k2`. -/
def cfgRas : LayerConfig :=
  { displayName := "Raster Coll"
  , layerIds := ["k2-layer"], checkboxId := "k2-layer"
  , hasLegend := false, isVector := false
  , specific := LayerSpecific.raster
      { type := "raster"
      , tiles := [tilesUrlOf "https://t" "img.tif" "reds" none]
      , tileSize := 256, minzoom := 0, maxzoom := 12, attribution := "" }
      { type := "raster", paint := { rasterOpacity := 7/10 }
      , layout := { visibility := "none" } } }

/-- A concrete layer request against `collInst`. -/
def reqInst1 : LayerRequest :=
  { collection_id := "c1", asset_id := "a1", layer_key := "k1"
  , display_name := none, options := { colormap := none, rescale := none } }

/-- The same request with a display-name override. -/
def reqInst2 : LayerRequest := { reqInst1 with display_name := some "Other" }

/-! ### Helper lemmas -/

theorem aboutLinkOf_eq (c : Document) : aboutLinkOf c = firstAboutHref c := by
  unfold aboutLinkOf firstAboutHref
  cases h : c.links.find? (fun l => l.rel == some "about") with
  | none => rfl
  | some l => rfl

theorem firstProviderNameE_ok (c : Document) (h : c.providers ≠ some []) :
    firstProviderNameE c = Except.ok (firstProviderName c) := by
  unfold firstProviderNameE firstProviderName
  cases hp : c.providers with
  | none => rfl
  | some ps =>
    cases ps with
    | nil => exact absurd hp h
    | cons p rest => rfl

theorem extractAttribution_total (c : Document) (h : c.providers ≠ some []) :
    extractAttribution c = Except.ok (attributionSpec c) := by
  unfold extractAttribution attributionSpec
  rw [firstProviderNameE_ok c h, aboutLinkOf_eq]

theorem extractAttribution_empty (c : Document) (h : c.providers = some []) :
    extractAttribution c = Except.error Err.indexError := by
  unfold extractAttribution firstProviderNameE
  rw [h]

theorem mem_dictInsert {α : Type} {k : String} {v : α} {d : List (String × α)}
    {p : String × α} (hp : p ∈ dictInsert k v d) : p = (k, v) ∨ p ∈ d := by
  induction d with
  | nil =>
    simp only [dictInsert, List.mem_singleton] at hp
    exact Or.inl hp
  | cons q rest ih =>
    simp only [dictInsert] at hp
    by_cases h : q.1 = k
    · rw [if_pos h] at hp
      rcases List.mem_cons.mp hp with h1 | h1
      · exact Or.inl h1
      · exact Or.inr (List.mem_cons_of_mem q h1)
    · rw [if_neg h] at hp
      rcases List.mem_cons.mp hp with h1 | h1
      · exact Or.inr (by rw [h1]; exact List.mem_cons_self q rest)
      · rcases ih h1 with h2 | h2
        · exact Or.inl h2
        · exact Or.inr (List.mem_cons_of_mem q h2)

theorem dictInsert_key_mem {α : Type} (k : String) (v : α) (d : List (String × α)) :
    ∃ p ∈ dictInsert k v d, p.1 = k := by
  induction d with
  | nil => exact ⟨(k, v), List.mem_singleton_self _, rfl⟩
  | cons q rest ih =>
    simp only [dictInsert]
    by_cases h : q.1 = k
    · rw [if_pos h]
      exact ⟨(k, v), List.mem_cons_self _ _, rfl⟩
    · rw [if_neg h]
      obtain ⟨p, hp, hpk⟩ := ih
      exact ⟨p, List.mem_cons_of_mem q hp, hpk⟩

theorem dictInsert_key_preserved {α : Type} (k : String) (v : α) (d : List (String × α))
    (n : String) (h : ∃ p ∈ d, p.1 = n) : ∃ p ∈ dictInsert k v d, p.1 = n := by
  induction d with
  | nil =>
    obtain ⟨p, hp, _⟩ := h
    exact absurd hp (List.not_mem_nil p)
  | cons q rest ih =>
    simp only [dictInsert]
    obtain ⟨p, hp, hpn⟩ := h
    by_cases hq : q.1 = k
    · rw [if_pos hq]
      rcases List.mem_cons.mp hp with h1 | h1
      · refine ⟨(k, v), List.mem_cons_self _ _, ?_⟩
        rw [← hpn, h1, hq]
      · exact ⟨p, List.mem_cons_of_mem _ h1, hpn⟩
    · rw [if_neg hq]
      rcases List.mem_cons.mp hp with h1 | h1
      · exact ⟨q, List.mem_cons_self _ _, by rw [← h1]; exact hpn⟩
      · obtain ⟨p', hp', hpn'⟩ := ih ⟨p, h1, hpn⟩
        exact ⟨p', List.mem_cons_of_mem _ hp', hpn'⟩

theorem filterableLoop_origin : ∀ (cols : List TableColumn) (acc : List (String × FilterProp))
    (p : String × FilterProp), p ∈ filterableLoop cols acc →
    (∃ c ∈ cols, c.name.getD "" ∉ excludedColumns ∧ p = (c.name.getD "", filterablePropOf c))
      ∨ p ∈ acc := by
  intro cols
  induction cols with
  | nil =>
    intro acc p hp
    exact Or.inr (by simpa [filterableLoop] using hp)
  | cons c rest ih =>
    intro acc p hp
    simp only [filterableLoop] at hp
    by_cases h : c.name.getD "" ∈ excludedColumns
    · rw [if_pos h] at hp
      rcases ih acc p hp with ⟨c', hc', hn, hpe⟩ | hacc
      · exact Or.inl ⟨c', List.mem_cons_of_mem c hc', hn, hpe⟩
      · exact Or.inr hacc
    · rw [if_neg h] at hp
      rcases ih _ p hp with ⟨c', hc', hn, hpe⟩ | hacc
      · exact Or.inl ⟨c', List.mem_cons_of_mem c hc', hn, hpe⟩
      · rcases mem_dictInsert hacc with hpe | hacc'
        · exact Or.inl ⟨c, List.mem_cons_self c rest, h, hpe⟩
        · exact Or.inr hacc'

theorem filterableLoop_key_preserved : ∀ (cols : List TableColumn)
    (acc : List (String × FilterProp)) (n : String),
    (∃ p ∈ acc, p.1 = n) → ∃ p ∈ filterableLoop cols acc, p.1 = n := by
  intro cols
  induction cols with
  | nil =>
    intro acc n h
    simpa [filterableLoop] using h
  | cons c rest ih =>
    intro acc n h
    simp only [filterableLoop]
    by_cases hc : c.name.getD "" ∈ excludedColumns
    · rw [if_pos hc]
      exact ih acc n h
    · rw [if_neg hc]
      exact ih _ n (dictInsert_key_preserved _ _ _ _ h)

theorem filterableLoop_complete : ∀ (cols : List TableColumn)
    (acc : List (String × FilterProp)) (c : TableColumn),
    c ∈ cols → c.name.getD "" ∉ excludedColumns →
    ∃ p ∈ filterableLoop cols acc, p.1 = c.name.getD "" := by
  intro cols
  induction cols with
  | nil =>
    intro acc c hc
    exact absurd hc (List.not_mem_nil c)
  | cons c0 rest ih =>
    intro acc c hc hnotex
    simp only [filterableLoop]
    rcases List.mem_cons.mp hc with h1 | h1
    · subst h1
      rw [if_neg hnotex]
      exact filterableLoop_key_preserved rest _ _ (dictInsert_key_mem _ _ _)
    · by_cases hc0 : c0.name.getD "" ∈ excludedColumns
      · rw [if_pos hc0]
        exact ih acc c h1 hnotex
      · rw [if_neg hc0]
        exact ih _ c h1 hnotex

theorem filterableField_eq (cols : List TableColumn) :
    filterableField cols
      = if extractFilterable cols = [] then none else some (extractFilterable cols) := by
  unfold filterableField
  by_cases h : cols = []
  · subst h
    rfl
  · rw [if_neg h]

theorem filterableField_none_iff (cols : List TableColumn) :
    filterableField cols = none ↔ extractFilterable cols = [] := by
  rw [filterableField_eq]
  by_cases he : extractFilterable cols = []
  · rw [if_pos he]
    simp [he]
  · rw [if_neg he]
    simp [he]

theorem resolvedDisplayName_eq (dn : Option String) (a : Asset) (c : Document) (k : String) :
    resolvedDisplayName dn a c k = displayNameSpec dn a.title c.title k := by
  unfold resolvedDisplayName displayNameSpec
  cases h : c.title with
  | none => rfl
  | some t => rfl

theorem findChildLoop_eq (fetch : String → Option Document) (join : String → String → String)
    (cu cid : String) : ∀ links : List Link,
    findChildLoop fetch join cu cid links
      = firstMatchingChild fetch cid (childUrlsOf join cu links) := by
  intro links
  induction links with
  | nil => rfl
  | cons l rest ih =>
    simp only [findChildLoop, childUrlsOf, List.filter_cons]
    by_cases h : (l.rel == some "child") = true
    · rw [if_pos h, if_pos h]
      simp only [List.map_cons, firstMatchingChild]
      cases hf : fetch (resolveChildUrl join cu (l.href.getD "")) with
      | none => rfl
      | some d =>
        dsimp only
        by_cases hid : (d.id == some cid) = true
        · rw [if_pos hid, if_pos hid]
        · rw [if_neg hid, if_neg hid]
          simpa [childUrlsOf] using ih
    · rw [if_neg h, if_neg h]
      simpa [childUrlsOf] using ih

theorem firstMatchingChild_congr (f₁ f₂ : String → Option Document) (cid : String) :
    ∀ urls : List String, (∀ u ∈ urls, f₁ u = f₂ u) →
    firstMatchingChild f₁ cid urls = firstMatchingChild f₂ cid urls := by
  intro urls
  induction urls with
  | nil => intro _; rfl
  | cons u rest ih =>
    intro h
    simp only [firstMatchingChild]
    rw [h u (List.mem_cons_self u rest)]
    cases hf : f₂ u with
    | none => rfl
    | some d =>
      dsimp only
      by_cases hid : (d.id == some cid) = true
      · rw [if_pos hid, if_pos hid]
      · rw [if_neg hid, if_neg hid]
        exact ih (fun v hv => h v (List.mem_cons_of_mem u hv))

theorem generate_lookup_none {collection : Document} {asset_id : String}
    (layer_key : String) (display_name : Option String) (titiler colormap : String)
    (rescale : Option String) (hlk : collection.assets.lookup asset_id = none) :
    generate_layer_config collection asset_id layer_key display_name titiler colormap rescale
      = Except.error (Err.assetNotFound asset_id) := by
  unfold generate_layer_config
  rw [hlk]

theorem generate_attr_error {collection : Document} {asset_id : String} {asset : Asset}
    {e : Err} (layer_key : String) (display_name : Option String) (titiler colormap : String)
    (rescale : Option String) (hlk : collection.assets.lookup asset_id = some asset)
    (hattr : extractAttribution collection = Except.error e) :
    generate_layer_config collection asset_id layer_key display_name titiler colormap rescale
      = Except.error e := by
  unfold generate_layer_config
  rw [hlk, hattr]

theorem generate_attr_ok {collection : Document} {asset_id : String} {asset : Asset}
    {attr : String} (layer_key : String) (display_name : Option String)
    (titiler colormap : String) (rescale : Option String)
    (hlk : collection.assets.lookup asset_id = some asset)
    (hattr : extractAttribution collection = Except.ok attr) :
    generate_layer_config collection asset_id layer_key display_name titiler colormap rescale
      = (if detect_layer_type asset = "pmtiles" then
          Except.ok
            { displayName := resolvedDisplayName display_name asset collection layer_key
            , layerIds := [layer_key ++ "-layer"]
            , checkboxId := layer_key ++ "-layer"
            , hasLegend := false
            , isVector := true
            , specific := LayerSpecific.vector
                { type := "vector"
                , url := "pmtiles://" ++ asset.href.getD ""
                , attribution := attr }
                { type := "fill"
                , sourceLayer := layer_key
                , minzoom := 0
                , maxzoom := 22
                , paint := { fillColor := "#2E7D32", fillOpacity := 1/2 }
                , layout := { visibility := "none" } }
                (filterableField collection.tableColumns) }
        else if detect_layer_type asset = "cog" then
          Except.ok
            { displayName := resolvedDisplayName display_name asset collection layer_key
            , layerIds := [layer_key ++ "-layer"]
            , checkboxId := layer_key ++ "-layer"
            , hasLegend := false
            , isVector := false
            , specific := LayerSpecific.raster
                { type := "raster"
                , tiles := [tilesUrlOf titiler (asset.href.getD "") colormap rescale]
                , tileSize := 256
                , minzoom := 0
                , maxzoom := 12
                , attribution := attr }
                { type := "raster"
                , paint := { rasterOpacity := 7/10 }
                , layout := { visibility := "none" } } }
        else Except.error (Err.unknownLayerType asset_id)) := by
  unfold generate_layer_config
  rw [hlk, hattr]

theorem detect_trichotomy (a : Asset) :
    detect_layer_type a = "pmtiles" ∨ detect_layer_type a = "cog"
      ∨ detect_layer_type a = "unknown" := by
  unfold detect_layer_type
  split
  · exact Or.inl rfl
  · split
    · exact Or.inr (Or.inl rfl)
    · exact Or.inr (Or.inr rfl)

theorem runLayersLoop_cons_ok (process : LayerRequest → Except Err LayerConfig)
    (req : LayerRequest) (rest : List LayerRequest) (acc : List (String × LayerConfig))
    (cfg : LayerConfig) (h : process req = Except.ok cfg) :
    runLayersLoop process (req :: rest) acc
      = runLayersLoop process rest (dictInsert req.layer_key cfg acc) := by
  simp only [runLayersLoop]
  rw [h]

theorem runLayersLoop_nil (process : LayerRequest → Except Err LayerConfig)
    (acc : List (String × LayerConfig)) : runLayersLoop process [] acc = Except.ok acc := rfl

/-! ### Claim C1 -/

/-- Claim C1 (amended): the attribution extraction of `generate_layer_config`
returns the exact anchor markup `<a href="{about}" target="_blank">{provider}</a>`
when both a non-empty first about-link href and a non-empty first provider name
exist, and the empty string when either is missing (including a missing
providers entry) — provided the providers entry is not a present-but-empty
sequence; in that remaining case the extraction raises an index error and is
fatal rather than returning the empty string. -/
theorem attribution_optional_never_fatal (c : Document) (h : c.providers ≠ some []) :
    extractAttribution c = Except.ok (attributionSpec c) :=
  extractAttribution_total c h

/-- Claim C1 witness: a concrete collection with both parts present. -/
theorem attribution_optional_never_fatal_inst :
    collInst.providers ≠ some []
    ∧ extractAttribution collInst = Except.ok (attributionSpec collInst) :=
  ⟨by decide, attribution_optional_never_fatal collInst (by decide)⟩

/-- Claim C1 counterexample: with a providers sequence that is present but
empty, the attribution extraction (and with it `generate_layer_config`) is
fatal instead of returning the empty string. -/
theorem attribution_empty_providers_fatal_cx :
    collProvEmpty.providers = some []
    ∧ extractAttribution collProvEmpty = Except.error Err.indexError
    ∧ generate_layer_config collProvEmpty "a1" "k1" none "https://t" "reds" none
      = Except.error Err.indexError :=
  ⟨rfl, rfl, rfl⟩

/-! ### Claim C2 -/

/-- Claim C2 (amended): every descriptor's displayName follows the resolution
order: non-empty explicit override, else non-empty asset title, else the
collection's title entry whenever that entry is present (even when it is the
empty string), else the layer key.  The layer-key fallback applies only when
the collection has no title entry, so the result can be empty when the
collection carries an empty-string title. -/
theorem display_name_resolution (collection : Document) (asset_id layer_key : String)
    (display_name : Option String) (titiler colormap : String) (rescale : Option String)
    (asset : Asset) (cfg : LayerConfig)
    (hlk : collection.assets.lookup asset_id = some asset)
    (hgen : generate_layer_config collection asset_id layer_key display_name titiler colormap
      rescale = Except.ok cfg) :
    cfg.displayName = displayNameSpec display_name asset.title collection.title layer_key := by
  cases hattr : extractAttribution collection with
  | error e =>
    rw [generate_attr_error layer_key display_name titiler colormap rescale hlk hattr] at hgen
    exact Except.noConfusion hgen
  | ok attr =>
    rw [generate_attr_ok layer_key display_name titiler colormap rescale hlk hattr] at hgen
    by_cases h1 : detect_layer_type asset = "pmtiles"
    · rw [if_pos h1] at hgen
      injection hgen with h
      rw [← h]
      exact resolvedDisplayName_eq display_name asset collection layer_key
    · rw [if_neg h1] at hgen
      by_cases h2 : detect_layer_type asset = "cog"
      · rw [if_pos h2] at hgen
        injection hgen with h
        rw [← h]
        exact resolvedDisplayName_eq display_name asset collection layer_key
      · rw [if_neg h2] at hgen
        exact Except.noConfusion hgen

/-- Claim C2 witness: a concrete run whose display name comes from the asset
title. -/
theorem display_name_resolution_inst :
    cfgVec1.displayName = displayNameSpec none assetInst.title collInst.title "k1" :=
  display_name_resolution collInst "a1" "k1" none "https://t" "reds" none assetInst cfgVec1
    rfl rfl

/-- Claim C2 counterexample: with no override, no asset title, and a
present-but-empty collection title, the produced displayName is the empty
string, not the layer key. -/
theorem display_name_empty_title_cx :
    collEmptyTitle.title = some ""
    ∧ (okValue (generate_layer_config collEmptyTitle "a1" "key" none "https://t" "reds"
        none)).map LayerConfig.displayName = some "" :=
  ⟨rfl, rfl⟩

/-! ### Claim C3 -/

/-- Claim C3: `detect_layer_type` evaluates its rules in fixed order: vector
(`"pmtiles"`) iff the lower-cased media type contains the vector marker or the
href ends with `".pmtiles"`; else raster (`"cog"`) iff the lower-cased media
type contains `"geotiff"` or `"cloud-optimized"` or the href ends with
`".tif"`; else `"unknown"`.  An href ending in `".pmtiles"` always classifies
as vector, and an asset with both media type and href missing or empty is
`"unknown"`. -/
theorem detect_layer_type_rules (a : Asset) :
    (detect_layer_type a = "pmtiles" ↔
      (containsSub (pyLower (a.type.getD "")) "pmtiles" = true
        ∨ strEndsWith (a.href.getD "") ".pmtiles" = true))
    ∧ (detect_layer_type a = "cog" ↔
      (¬(containsSub (pyLower (a.type.getD "")) "pmtiles" = true
            ∨ strEndsWith (a.href.getD "") ".pmtiles" = true)
        ∧ (containsSub (pyLower (a.type.getD "")) "geotiff" = true
            ∨ containsSub (pyLower (a.type.getD "")) "cloud-optimized" = true
            ∨ strEndsWith (a.href.getD "") ".tif" = true)))
    ∧ (detect_layer_type a = "unknown" ↔
      (¬(containsSub (pyLower (a.type.getD "")) "pmtiles" = true
            ∨ strEndsWith (a.href.getD "") ".pmtiles" = true)
        ∧ ¬(containsSub (pyLower (a.type.getD "")) "geotiff" = true
            ∨ containsSub (pyLower (a.type.getD "")) "cloud-optimized" = true
            ∨ strEndsWith (a.href.getD "") ".tif" = true)))
    ∧ (strEndsWith (a.href.getD "") ".pmtiles" = true → detect_layer_type a = "pmtiles")
    ∧ ((a.type = none ∨ a.type = some "") → (a.href = none ∨ a.href = some "") →
        detect_layer_type a = "unknown") := by
  have hempty : (a.type = none ∨ a.type = some "") → (a.href = none ∨ a.href = some "") →
      detect_layer_type a = "unknown" := by
    intro ht hh
    have ht' : a.type.getD "" = "" := by rcases ht with h | h <;> rw [h] <;> rfl
    have hh' : a.href.getD "" = "" := by rcases hh with h | h <;> rw [h] <;> rfl
    unfold detect_layer_type
    rw [ht', hh']
    rfl
  refine ⟨?_, ?_, ?_, ?_, hempty⟩
  all_goals
    unfold detect_layer_type
    cases hc1 : containsSub (pyLower (a.type.getD "")) "pmtiles" <;>
      cases hc2 : strEndsWith (a.href.getD "") ".pmtiles" <;>
      cases hc3 : containsSub (pyLower (a.type.getD "")) "geotiff" <;>
      cases hc4 : containsSub (pyLower (a.type.getD "")) "cloud-optimized" <;>
      cases hc5 : strEndsWith (a.href.getD "") ".tif" <;>
      simp_all

/-- Claim C3 witness: concrete classifications through each rule. -/
theorem detect_layer_type_rules_inst :
    detect_layer_type assetInst = "pmtiles"
    ∧ detect_layer_type assetRaster = "cog"
    ∧ detect_layer_type { href := none, type := none, title := none } = "unknown" :=
  ⟨(detect_layer_type_rules assetInst).1.mpr (Or.inr (by decide)),
    (detect_layer_type_rules assetRaster).2.1.mpr ⟨by decide, by decide⟩,
    (detect_layer_type_rules { href := none, type := none, title := none }).2.2.2.2
      (Or.inl rfl) (Or.inl rfl)⟩

/-! ### Claim C4 -/

/-- Claim C4: the catalog resolver equals the spec-side description — it
examines only the catalog's direct child links in document order, resolves
each reference against the catalog's own location when it is not already
absolute (`startswith("http")`), fetches the child, and returns the first
child whose id equals the requested collection id exactly, or not-found —
and its result depends only on the fetched root and the direct child
locations, so it never recurses into grandchildren. -/
theorem find_collection_resolution :
    (∀ (fetch : String → Option Document) (join : String → String → String) (cu cid : String),
      find_collection_url fetch join cu cid = resolveSpec fetch join cu cid)
    ∧ (∀ (f₁ f₂ : String → Option Document) (join : String → String → String)
        (cu cid : String) (cat : Document),
        f₁ cu = some cat → f₂ cu = some cat →
        (∀ u ∈ childUrlsOf join cu cat.links, f₁ u = f₂ u) →
        find_collection_url f₁ join cu cid = find_collection_url f₂ join cu cid) := by
  constructor
  · intro fetch join cu cid
    unfold find_collection_url resolveSpec
    cases h : fetch cu with
    | none => rfl
    | some cat => exact findChildLoop_eq fetch join cu cid cat.links
  · intro f₁ f₂ join cu cid cat h1 h2 hAgree
    unfold find_collection_url
    rw [h1, h2]
    show findChildLoop f₁ join cu cid cat.links = findChildLoop f₂ join cu cid cat.links
    rw [findChildLoop_eq, findChildLoop_eq]
    exact firstMatchingChild_congr f₁ f₂ cid (childUrlsOf join cu cat.links) hAgree

/-- Claim C4 witness: a concrete catalog with one direct child. -/
theorem find_collection_resolution_inst :
    find_collection_url fetchInst joinInst "http://cat" "c1"
      = resolveSpec fetchInst joinInst "http://cat" "c1"
    ∧ find_collection_url fetchInst joinInst "http://cat" "c1" = Except.ok (some "http://coll")
    ∧ find_collection_url fetchInst joinInst "http://cat" "c1"
      = find_collection_url fetchInst joinInst "http://cat" "c1" :=
  ⟨find_collection_resolution.1 fetchInst joinInst "http://cat" "c1", rfl,
    find_collection_resolution.2 fetchInst fetchInst joinInst "http://cat" "c1" catInst
      rfl rfl (fun _ _ => rfl)⟩

/-! ### Claim C5 -/

/-- Claim C5: the filterable-attribute extraction never emits any of the five
structural column names; every emitted entry originates from a retained
source column whose declared type containing `"float"` or `"int"` maps to
`"number"` and any other declared type to `"string"`, with the description
carried through verbatim (empty if absent); and every retained source column
contributes an entry under its name. -/
theorem filterable_extraction_rules :
    (∀ (cols : List TableColumn) (p : String × FilterProp), p ∈ extractFilterable cols →
      p.1 ∉ excludedColumns
      ∧ ∃ c ∈ cols, c.name.getD "" = p.1
          ∧ p.2.type = (if containsSub (c.type.getD "string") "float"
              || containsSub (c.type.getD "string") "int" then "number" else "string")
          ∧ p.2.description = c.description.getD "")
    ∧ (∀ (cols : List TableColumn) (c : TableColumn), c ∈ cols →
        c.name.getD "" ∉ excludedColumns →
        ∃ p ∈ extractFilterable cols, p.1 = c.name.getD "") := by
  constructor
  · intro cols p hp
    rcases filterableLoop_origin cols [] p hp with ⟨c, hc, hn, hpe⟩ | habs
    · rw [hpe]
      exact ⟨hn, c, hc, rfl, rfl, rfl⟩
    · exact absurd habs (List.not_mem_nil p)
  · intro cols c hc hne
    exact filterableLoop_complete cols [] c hc hne

/-- Claim C5 witness: a concrete column list containing the excluded
`geometry` column and a retained float column. -/
theorem filterable_extraction_rules_inst :
    (acresEntry ∈ extractFilterable colsInst
      ∧ acresEntry.1 ∉ excludedColumns
      ∧ ∃ c ∈ colsInst, c.name.getD "" = acresEntry.1
          ∧ acresEntry.2.type = (if containsSub (c.type.getD "string") "float"
              || containsSub (c.type.getD "string") "int" then "number" else "string")
          ∧ acresEntry.2.description = c.description.getD "")
    ∧ (acresCol ∈ colsInst ∧ ∃ p ∈ extractFilterable colsInst, p.1 = "acres") :=
  ⟨⟨by decide, filterable_extraction_rules.1 colsInst acresEntry (by decide)⟩,
    ⟨by decide, filterable_extraction_rules.2 colsInst acresCol (by decide) (by decide)⟩⟩

/-! ### Claim C6 -/

/-- Claim C6: every vector-classified asset that yields a descriptor yields
one with source type `"vector"`, url `pmtiles://` plus the asset href,
source-layer equal to the layer key, fill paint `#2E7D32` at 0.5 opacity,
hidden visibility, zoom range 0–22, layerIds `["<key>-layer"]`, and a
filterableProperties field present exactly when the extracted filterable
mapping is non-empty. -/
theorem vector_descriptor_shape (collection : Document) (asset_id layer_key : String)
    (display_name : Option String) (titiler colormap : String) (rescale : Option String)
    (asset : Asset) (cfg : LayerConfig)
    (hlk : collection.assets.lookup asset_id = some asset)
    (hty : detect_layer_type asset = "pmtiles")
    (hgen : generate_layer_config collection asset_id layer_key display_name titiler colormap
      rescale = Except.ok cfg) :
    cfg.specific.sourceTypeStr = "vector"
    ∧ cfg.specific.vectorUrl? = some ("pmtiles://" ++ asset.href.getD "")
    ∧ cfg.specific.vectorLayer? = some
        { type := "fill", sourceLayer := layer_key, minzoom := 0, maxzoom := 22
        , paint := { fillColor := "#2E7D32", fillOpacity := 1/2 }
        , layout := { visibility := "none" } }
    ∧ cfg.layerIds = [layer_key ++ "-layer"]
    ∧ cfg.checkboxId = layer_key ++ "-layer"
    ∧ cfg.specific.filterable?
        = (if extractFilterable collection.tableColumns = [] then none
          else some (extractFilterable collection.tableColumns))
    ∧ (cfg.specific.filterable? ≠ none ↔ extractFilterable collection.tableColumns ≠ []) := by
  cases hattr : extractAttribution collection with
  | error e =>
    rw [generate_attr_error layer_key display_name titiler colormap rescale hlk hattr] at hgen
    exact Except.noConfusion hgen
  | ok attr =>
    rw [generate_attr_ok layer_key display_name titiler colormap rescale hlk hattr,
      if_pos hty] at hgen
    injection hgen with h
    rw [← h]
    refine ⟨rfl, rfl, rfl, rfl, rfl, ?_, ?_⟩
    · exact filterableField_eq collection.tableColumns
    · exact not_congr (filterableField_none_iff collection.tableColumns)

/-- Claim C6 witness: the concrete vector descriptor from `collInst`. -/
theorem vector_descriptor_shape_inst :
    cfgVec1.specific.sourceTypeStr = "vector"
    ∧ cfgVec1.specific.vectorUrl? = some "pmtiles://data.pmtiles"
    ∧ cfgVec1.specific.vectorLayer? = some
        { type := "fill", sourceLayer := "k1", minzoom := 0, maxzoom := 22
        , paint := { fillColor := "#2E7D32", fillOpacity := 1/2 }
        , layout := { visibility := "none" } }
    ∧ cfgVec1.layerIds = ["k1" ++ "-layer"]
    ∧ cfgVec1.checkboxId = "k1" ++ "-layer"
    ∧ cfgVec1.specific.filterable?
        = (if extractFilterable collInst.tableColumns = [] then none
          else some (extractFilterable collInst.tableColumns))
    ∧ (cfgVec1.specific.filterable? ≠ none ↔ extractFilterable collInst.tableColumns ≠ []) :=
  vector_descriptor_shape collInst "a1" "k1" none "https://t" "reds" none assetInst cfgVec1
    rfl rfl rfl

/-! ### Claim C7 -/

/-- Claim C7 (amended): every raster-classified asset that yields a descriptor
yields one with source type `"raster"`, a single tile URL embedding the tile
service base, the asset href and the colormap as query parameters — with the
rescale range appended exactly when a non-empty rescale value was supplied (a
rescale supplied as the empty string is treated as absent) — tileSize 256,
zoom range 0–12, raster-opacity 0.7, hidden visibility, and no
filterableProperties field. -/
theorem raster_descriptor_shape (collection : Document) (asset_id layer_key : String)
    (display_name : Option String) (titiler colormap : String) (rescale : Option String)
    (asset : Asset) (cfg : LayerConfig)
    (hlk : collection.assets.lookup asset_id = some asset)
    (hty : detect_layer_type asset = "cog")
    (hgen : generate_layer_config collection asset_id layer_key display_name titiler colormap
      rescale = Except.ok cfg) :
    cfg.specific.sourceTypeStr = "raster"
    ∧ cfg.specific.rasterTiles? = some
        [if rescale.getD "" ≠ "" then
            titiler ++ "/cog/tiles/WebMercatorQuad/{z}/{x}/{y}.png?url=" ++ asset.href.getD ""
              ++ "&colormap_name=" ++ colormap ++ "&rescale=" ++ rescale.getD ""
          else
            titiler ++ "/cog/tiles/WebMercatorQuad/{z}/{x}/{y}.png?url=" ++ asset.href.getD ""
              ++ "&colormap_name=" ++ colormap]
    ∧ cfg.specific.rasterTileSize? = some 256
    ∧ cfg.specific.rasterZoomRange? = some (0, 12)
    ∧ cfg.specific.rasterLayer? = some
        { type := "raster", paint := { rasterOpacity := 7/10 }
        , layout := { visibility := "none" } }
    ∧ cfg.specific.filterable? = none
    ∧ cfg.layerIds = [layer_key ++ "-layer"]
    ∧ cfg.isVector = false := by
  cases hattr : extractAttribution collection with
  | error e =>
    rw [generate_attr_error layer_key display_name titiler colormap rescale hlk hattr] at hgen
    exact Except.noConfusion hgen
  | ok attr =>
    rw [generate_attr_ok layer_key display_name titiler colormap rescale hlk hattr, hty,
      if_neg (by decide), if_pos rfl] at hgen
    injection hgen with h
    rw [← h]
    exact ⟨rfl, rfl, rfl, rfl, rfl, rfl, rfl, rfl⟩

/-- Claim C7 witness: the concrete raster descriptor from `collRaster`. -/
theorem raster_descriptor_shape_inst :
    cfgRas.specific.sourceTypeStr = "raster"
    ∧ cfgRas.specific.rasterTiles? = some
        ["https://t/cog/tiles/WebMercatorQuad/{z}/{x}/{y}.png?url=img.tif&colormap_name=reds"]
    ∧ cfgRas.specific.rasterTileSize? = some 256
    ∧ cfgRas.specific.rasterZoomRange? = some (0, 12)
    ∧ cfgRas.specific.rasterLayer? = some
        { type := "raster", paint := { rasterOpacity := 7/10 }
        , layout := { visibility := "none" } }
    ∧ cfgRas.specific.filterable? = none
    ∧ cfgRas.layerIds = ["k2" ++ "-layer"]
    ∧ cfgRas.isVector = false :=
  raster_descriptor_shape collRaster "r1" "k2" none "https://t" "reds" none assetRaster cfgRas
    rfl rfl rfl

/-- Claim C7 counterexample: a rescale supplied as the empty string is not
appended, although one was supplied in the options. -/
theorem raster_rescale_empty_cx :
    (okValue (generate_layer_config collRaster "r1" "k2" none "https://t" "reds"
        (some ""))).bind (fun c => c.specific.rasterTiles?)
      = some ["https://t/cog/tiles/WebMercatorQuad/{z}/{x}/{y}.png?url=img.tif&colormap_name=reds"]
    ∧ containsSub
        "https://t/cog/tiles/WebMercatorQuad/{z}/{x}/{y}.png?url=img.tif&colormap_name=reds"
        "rescale" = false :=
  ⟨rfl, by decide⟩

/-! ### Claim C8 -/

/-- Claim C8 (amended): `generate_layer_config` fails exactly when the
requested asset id is absent from the collection's asset mapping, or the
collection's providers entry is a present-but-empty sequence (index error
during attribution extraction), or the asset's classification is
unrecognized; in every other case it returns a descriptor. -/
theorem generate_failure_characterization (collection : Document) (asset_id layer_key : String)
    (display_name : Option String) (titiler colormap : String) (rescale : Option String) :
    isErr (generate_layer_config collection asset_id layer_key display_name titiler colormap
      rescale) = true
    ↔ (collection.assets.lookup asset_id = none
        ∨ collection.providers = some []
        ∨ ∃ a, collection.assets.lookup asset_id = some a ∧ detect_layer_type a = "unknown") := by
  cases hlk : collection.assets.lookup asset_id with
  | none =>
    rw [generate_lookup_none layer_key display_name titiler colormap rescale hlk]
    simp [isErr]
  | some asset =>
    by_cases hp : collection.providers = some []
    · rw [generate_attr_error layer_key display_name titiler colormap rescale hlk
        (extractAttribution_empty collection hp)]
      simp [isErr, hp]
    · rw [generate_attr_ok layer_key display_name titiler colormap rescale hlk
        (extractAttribution_total collection hp)]
      rcases detect_trichotomy asset with hd | hd | hd
      · rw [hd, if_pos rfl]
        simp [isErr, hp, hd]
      · rw [hd, if_neg (by decide), if_pos rfl]
        simp [isErr, hp, hd]
      · rw [hd, if_neg (by decide), if_neg (by decide)]
        simp [isErr, hp, hd]

/-- Claim C8 witness: a missing asset id is fatal. -/
theorem generate_failure_characterization_inst :
    isErr (generate_layer_config collInst "missing" "k" none "https://t" "reds" none) = true :=
  (generate_failure_characterization collInst "missing" "k" none "https://t" "reds"
    none).mpr (Or.inl rfl)

/-- Claim C8 counterexample: a present asset with a recognized classification
still fails when the providers sequence is present but empty, so asset
absence and unrecognized classification are not the only failure causes. -/
theorem generate_failure_extra_cx :
    collProvEmpty.assets.lookup "a1" = some assetInst
    ∧ detect_layer_type assetInst = "pmtiles"
    ∧ generate_layer_config collProvEmpty "a1" "k1" none "https://t" "reds" none
      = Except.error Err.indexError :=
  ⟨rfl, rfl, rfl⟩

/-! ### Claim C9 -/

/-- Claim C9: the generator core is deterministic — for fixed inputs and a
fixed mapping from locations to fetched documents, two runs produce the same
output document, and every successful output carries the fixed version tag
and description. -/
theorem generator_deterministic :
    (∀ (f₁ f₂ : String → Option Document) (j₁ j₂ : String → String → String)
        (cu ti cm : String) (specs : List LayerRequest),
        (∀ u, f₁ u = f₂ u) → (∀ a b, j₁ a b = j₂ a b) →
        runMain f₁ j₁ cu ti cm specs = runMain f₂ j₂ cu ti cm specs)
    ∧ (∀ (fetch : String → Option Document) (join : String → String → String)
        (cu ti cm : String) (specs : List LayerRequest) (out : LayersConfig),
        runMain fetch join cu ti cm specs = Except.ok out →
        out.version = "1.0" ∧ out.description = configDescription) := by
  constructor
  · intro f₁ f₂ j₁ j₂ cu ti cm specs hf hj
    have hf' : f₁ = f₂ := funext hf
    have hj' : j₁ = j₂ := funext (fun a => funext (hj a))
    rw [hf', hj']
  · intro fetch join cu ti cm specs out h
    unfold runMain at h
    cases hr : runLayersLoop (processSpec fetch join cu ti cm) specs [] with
    | error e =>
      rw [hr] at h
      exact Except.noConfusion h
    | ok layers =>
      rw [hr] at h
      injection h with h
      rw [← h]
      exact ⟨rfl, rfl⟩

/-- Claim C9 witness: two runs over the same empty request list agree, and
the successful output carries the fixed header fields. -/
theorem generator_deterministic_inst :
    runMain fetchNone joinInst "http://cat" "https://t" "reds" []
      = runMain fetchNone joinInst "http://cat" "https://t" "reds" []
    ∧ (({ version := "1.0", description := configDescription, layers := [] }
        : LayersConfig).version = "1.0"
      ∧ ({ version := "1.0", description := configDescription, layers := [] }
        : LayersConfig).description = configDescription) :=
  ⟨generator_deterministic.1 fetchNone fetchNone joinInst joinInst "http://cat" "https://t"
      "reds" [] (fun _ => rfl) (fun _ _ => rfl),
    generator_deterministic.2 fetchNone joinInst "http://cat" "https://t" "reds" [] _ rfl⟩

/-! ### Claim C10 -/

/-- Claim C10: two layer requests carrying the same layer key raise no error;
the final document holds exactly one descriptor under that key — the one
generated from the later request, silently overwriting the earlier one. -/
theorem duplicate_key_last_wins (fetch : String → Option Document)
    (join : String → String → String) (cu ti cm : String)
    (s₁ s₂ : LayerRequest) (c₁ c₂ : LayerConfig)
    (hkey : s₁.layer_key = s₂.layer_key)
    (h1 : processSpec fetch join cu ti cm s₁ = Except.ok c₁)
    (h2 : processSpec fetch join cu ti cm s₂ = Except.ok c₂) :
    runMain fetch join cu ti cm [s₁, s₂]
      = Except.ok { version := "1.0", description := configDescription
                  , layers := [(s₂.layer_key, c₂)] } := by
  have hins : dictInsert s₂.layer_key c₂
      (dictInsert s₁.layer_key c₁ ([] : List (String × LayerConfig)))
      = [(s₂.layer_key, c₂)] := by
    show dictInsert s₂.layer_key c₂ [(s₁.layer_key, c₁)] = [(s₂.layer_key, c₂)]
    simp [dictInsert, hkey]
  unfold runMain
  rw [runLayersLoop_cons_ok _ _ _ _ _ h1, runLayersLoop_cons_ok _ _ _ _ _ h2,
    runLayersLoop_nil, hins]

/-- Claim C10 witness: a concrete duplicate-key batch keeps only the later
request's descriptor. -/
theorem duplicate_key_last_wins_inst :
    runMain fetchInst joinInst "http://cat" "https://t" "reds" [reqInst1, reqInst2]
      = Except.ok { version := "1.0", description := configDescription
                  , layers := [("k1", cfgVec2)] } :=
  duplicate_key_last_wins fetchInst joinInst "http://cat" "https://t" "reds"
    reqInst1 reqInst2 cfgVec1 cfgVec2 rfl rfl rfl

end Stac
